import Mathlib

/-!
# Verification of the habitat supervisor peer watcher

A shallow embedding of `components/sup/src/manager/peer_watcher.rs`:
the `PeerWatcher` handle, its `get_members` membership extractor, the
`file_watcher_loop_body` worker-loop iteration and its backend selection,
and the `PeerCallbacks` change-signal hooks.

Filesystem reads, address resolution (DNS) and file-watcher backend
outcomes are external effects; they are embedded as explicit inputs:
a `WatchedFile` record for the state of the watched path, a `DnsOracle`
function for name lookups, and an `IterEnv` record for the outcomes a
worker-loop iteration observes.  The change signal (an `AtomicBool` in
the source) is threaded explicitly as a `Bool`.
-/

namespace PeerWatcher

/-- The default gossip port appended to a line with no `:`.
Modelled from the spec: `GossipListenAddr::DEFAULT_PORT` lives in the
`habitat_common` crate, which is not under `src/`; the spec calls it the
"well-known default gossip port" constant (its concrete value is habitat's
gossip port 9638; no claim depends on the numeral). -/
def GossipListenAddr.DEFAULT_PORT : Nat := 9638

/-- A resolved socket address: `ip` is the textual form of the IP
(as produced by Rust's `Display` on `IpAddr`), `port` the port. -/
structure SocketAddr where
  ip : String
  port : Nat
  deriving Repr, DecidableEq

/-- A gossip member descriptor, the fields of `habitat_butterfly::member::Member`
relevant to this subsystem.  The `Default` implementation of `Member` is in the
`habitat_butterfly` crate, not under `src/`. -/
structure Member where
  id : String
  address : String
  swim_port : Nat
  gossip_port : Nat
  deriving Repr, DecidableEq

/-- Modelled from the spec: `Member::default()` (habitat_butterfly, not under
`src/`).  The spec says the `id` is an "opaque identifier, left empty here;
assigned later by a downstream component", and the remaining fields are the
neutral defaults overridden by `get_members` where relevant. -/
def Member.default : Member :=
  { id := "", address := "", swim_port := 0, gossip_port := 0 }

/-- Errors of the supervisor error type, restricted to the constructors
`peer_watcher.rs` constructs or matches on (`Error::NotifyError`,
`Error::Io` (as `ioError`), `Error::NameLookup`); every other constructor is collapsed
into `other`, which is all the source's `_` match arm distinguishes. -/
inductive SupError where
  | notifyError (msg : String)
  | ioError (msg : String)
  | nameLookup (msg : String)
  | other (msg : String)
  deriving Repr, DecidableEq

/-- Outcome of a Rust computation that can return, fail, or panic.
The `panic` constructor models an unguarded `addrs[0]` index on an empty
vector (a Rust panic, not an `Err` return). -/
inductive RunResult (α : Type) where
  | ok (a : α)
  | err (e : SupError)
  | panic
  deriving Repr, DecidableEq

/-! ## Address resolution (`ToSocketAddrs` on `&str`)

Modelled from the spec: "Resolve `host:port` to one or more socket
addresses (literal-IP parse or name lookup, per standard resolution
rules)" — the standard library's resolution first tries to parse the
whole string as a literal socket address, and otherwise splits it at
the last `:` and hands `host`/`port` to the system resolver.  The
system resolver is external and is taken as an oracle parameter. -/

/-- A name-lookup oracle: what the system resolver returns for a given
host and port.  `Except.error` is a lookup failure. -/
abbrev DnsOracle := String → Nat → Except String (List SocketAddr)

/-- Split a character list on a separator character, like Rust's
`split(c)`: `"a:b"` gives `["a", "b"]`, the empty string gives `[""]`. -/
def splitOnChar (c : Char) : List Char → List (List Char)
  | [] => [[]]
  | x :: xs =>
    match splitOnChar c xs, decide (x = c) with
    | groups, true => [] :: groups
    | g :: gs, false => (x :: g) :: gs
    | [], false => [[x]]

/-- The numeric value of a decimal digit character. -/
def digitVal? (c : Char) : Option Nat :=
  if '0' ≤ c ∧ c ≤ '9' then some (c.toNat - '0'.toNat) else none

/-- Accumulate a decimal number over a digit list. -/
def digitsToNatAux : List Char → Nat → Option Nat
  | [], acc => some acc
  | c :: cs, acc =>
    match digitVal? c with
    | some d => digitsToNatAux cs (acc * 10 + d)
    | none => none

/-- Parse a nonempty all-digits character list as a decimal number. -/
def digitsToNat? : List Char → Option Nat
  | [] => none
  | cs => digitsToNatAux cs 0

/-- Parse one decimal IPv4 octet: digits only, value ≤ 255, no leading
zeros (Rust's `Ipv4Addr` parser rejects a zero prefix). -/
def parseOctet (cs : List Char) : Option Nat :=
  match digitsToNat? cs with
  | some n => if n ≤ 255 ∧ (cs.head? ≠ some '0' ∨ cs = ['0']) then some n else none
  | none => none

/-- Recognise a literal IPv4 address `a.b.c.d`.  Because leading zeros
are rejected, a recognised literal is already in the canonical form that
Rust's `Display` on the parsed `Ipv4Addr` would print. -/
def isIpv4 (cs : List Char) : Bool :=
  match splitOnChar '.' cs with
  | [a, b, c, d] =>
    (parseOctet a).isSome && (parseOctet b).isSome &&
      (parseOctet c).isSome && (parseOctet d).isSome
  | _ => false

/-- Parse a decimal port number fitting in `u16` (leading zeros allowed,
as in `u16` parsing). -/
def parsePort (cs : List Char) : Option Nat :=
  match digitsToNat? cs with
  | some n => if n ≤ 65535 then some n else none
  | none => none

/-- Parse a literal IPv4 socket address `a.b.c.d:port`. -/
def parseSocketAddrV4 (s : String) : Option SocketAddr :=
  match splitOnChar ':' s.toList with
  | [h, p] =>
    match isIpv4 h, parsePort p with
    | true, some port => some { ip := ⟨h⟩, port := port }
    | _, _ => none
  | _ => none

/-- Split a string at its last `:` into host and port text
(Rust's `rsplit_once(':')`). -/
def rsplitOnceColon (s : String) : Option (String × String) :=
  let cs := s.toList
  match cs.reverse.findIdx? (· = ':') with
  | none => none
  | some i => some (⟨cs.take (cs.length - 1 - i)⟩, ⟨cs.drop (cs.length - i)⟩)

/-- `peer_addr.to_socket_addrs()`: literal socket-address parse first,
otherwise split at the last `:`, parse the port, and ask the resolver. -/
def toSocketAddrs (dns : DnsOracle) (s : String) : Except String (List SocketAddr) :=
  match parseSocketAddrV4 s with
  | some a => .ok [a]
  | none =>
    match rsplitOnceColon s with
    | none => .error "invalid socket address"
    | some (h, p) =>
      match parsePort p.toList with
      | some port => dns h port
      | none => .error "invalid port value"

/-! ## The membership extractor `get_members` -/

/-- State of the watched path as `get_members` observes it:
whether `path.is_file()` holds, whether `File::open` fails (and with what
message), and the file's lines as the `BufReader::lines()` iterator yields
them — `some s` for a line read as the string `s`, `none` for a line whose
read fails (invalid encoding). -/
structure WatchedFile where
  is_file : Bool
  openErr : Option String
  lines : List (Option String)

/-- The `peer_addr` built from one line (peer_watcher.rs:157-161):
the line itself when it contains a `:`, otherwise the line with the
default gossip port appended. -/
def peerAddrOfLine (line : String) : String :=
  if line.toList.contains ':' then line
  else line ++ ":" ++ toString GossipListenAddr.DEFAULT_PORT

/-- The `Member` built from the first resolved address
(peer_watcher.rs:170-173): the address's IP as text, its port as both
`swim_port` and `gossip_port`, the rest from `Member::default()`. -/
def memberOfSocketAddr (a : SocketAddr) : Member :=
  { Member.default with address := a.ip, swim_port := a.port, gossip_port := a.port }

/-- The body of the `for line in reader.lines().flatten()` loop
(peer_watcher.rs:156-175) over the successfully read lines: resolve each
line's `peer_addr`; a resolution error aborts with `Error::NameLookup`;
`addrs[0]` on an empty resolution result is a panic; otherwise the first
address becomes a member. -/
def resolveLines (dns : DnsOracle) : List String → RunResult (List Member)
  | [] => .ok []
  | line :: rest =>
    match toSocketAddrs dns (peerAddrOfLine line) with
    | .error e => .err (.nameLookup e)
    | .ok [] => .panic
    | .ok (a :: _) =>
      match resolveLines dns rest with
      | .ok ms => .ok (memberOfSocketAddr a :: ms)
      | .err e => .err e
      | .panic => .panic

/-- `PeerWatcher::get_members` (peer_watcher.rs:148-178), with the change
signal threaded explicitly: returns the call's result together with the
signal's value after the call.  If the path is not a file the signal is
cleared and the empty list returned; an open failure returns `Error::Io` (as `ioError`);
then the readable lines are resolved in order; only the successful path
clears the signal before returning. -/
def get_members (dns : DnsOracle) (fs : WatchedFile) (signal : Bool) :
    RunResult (List Member) × Bool :=
  if fs.is_file = false then (.ok [], false)
  else
    match fs.openErr with
    | some e => (.err (.ioError e), signal)
    | none =>
      match resolveLines dns (fs.lines.filterMap id) with
      | .ok ms => (.ok ms, false)
      | .err e => (.err e, signal)
      | .panic => (.panic, signal)

/-- `PeerWatcher::has_fs_events` (peer_watcher.rs:146): a read of the
change signal. -/
def has_fs_events (signal : Bool) : Bool := signal

/-! ## The change-signal callbacks and the worker loop -/

/-- The three file-watcher callback hooks of `PeerCallbacks`
(peer_watcher.rs:30-36). -/
inductive PeerEvent where
  | file_appeared
  | file_modified
  | file_disappeared
  deriving Repr, DecidableEq

/-- Effect of one callback invocation on the change signal: every hook
stores `true` (peer_watcher.rs:31-35). -/
def applyCallback (_signal : Bool) (e : PeerEvent) : Bool :=
  match e with
  | .file_appeared => true
  | .file_modified => true
  | .file_disappeared => true

/-- The change signal after a sequence of callback invocations, starting
from the fresh `AtomicBool::new(false)` of `setup_watcher`
(peer_watcher.rs:54). -/
def signalAfter (events : List PeerEvent) : Bool :=
  events.foldl applyCallback false

/-- The two file-watcher backend variants (`FileWatcherType` in
`manager::file_watcher`). -/
inductive FileWatcherType where
  | PollWatcherType
  | NotifyWatcherType
  deriving Repr, DecidableEq

/-- Backend selection from the `HAB_STUDIO_HOST_ARCH` environment
variable (peer_watcher.rs:73-81): `none` when the variable is absent,
`"aarch64-macos"` selects the poll watcher, any other value the notify
watcher. -/
def selectedWatcherType (arch : Option String) : Option FileWatcherType :=
  match arch with
  | some a => if a = "aarch64-macos" then some .PollWatcherType else some .NotifyWatcherType
  | none => none

/-- The backend actually constructed by the `match watcher_type` at
peer_watcher.rs:83-142: `Some(PollWatcherType)` runs `poll_file_watcher`,
everything else (including `None`) runs `default_file_watcher`, the
event-driven notify backend. -/
def effectiveBackend (arch : Option String) : FileWatcherType :=
  match selectedWatcherType arch with
  | some .PollWatcherType => .PollWatcherType
  | _ => .NotifyWatcherType

/-- The external outcomes one iteration of the worker loop observes:
the environment variable's value, the construction outcome of each
backend constructor, and the outcome of the constructed watcher's
(blocking) `run()`. -/
structure IterEnv where
  arch : Option String
  pollConstruct : Except SupError Unit
  defaultConstruct : Except SupError Unit
  runOutcome : Except String Unit

/-- `PeerWatcher::file_watcher_loop_body` (peer_watcher.rs:71-144):
returns `true` exactly when the loop in `setup_watcher` should break.
Construction success followed by any `run()` outcome returns `false`
(an error is logged and `false` returned; an `Ok` falls through to the
final `false`); a `NotifyError` construction failure returns `false`
(retry); any other construction failure returns `true`. -/
def file_watcher_loop_body (it : IterEnv) : Bool :=
  match selectedWatcherType it.arch with
  | some .PollWatcherType =>
    match it.pollConstruct with
    | .ok _ =>
      match it.runOutcome with
      | .error _ => false
      | .ok _ => false
    | .error (.notifyError _) => false
    | .error _ => true
  | _ =>
    match it.defaultConstruct with
    | .ok _ =>
      match it.runOutcome with
      | .error _ => false
      | .ok _ => false
    | .error (.notifyError _) => false
    | .error _ => true

/-- The final status of a worker thread, as returned to the liveliness
checker (`liveliness_checker::ThreadUnregistered`). -/
inductive ThreadUnregistered where
  | unregistered (status : Except SupError Unit)

/-- The worker loop spawned by `setup_watcher` (peer_watcher.rs:60-66),
driven by a finite trace of iteration outcomes: each iteration runs
`file_watcher_loop_body` and breaks with `checked_thread.unregister(Ok(()))`
when it returns `true`; `none` means the trace was exhausted with the
loop still running. -/
def worker_loop : List IterEnv → Option ThreadUnregistered
  | [] => none
  | it :: rest =>
    if file_watcher_loop_body it then some (.unregistered (.ok ()))
    else worker_loop rest

/-- The outcome of constructing the backend this iteration selects. -/
def constructionOutcome (it : IterEnv) : Except SupError Unit :=
  match selectedWatcherType it.arch with
  | some .PollWatcherType => it.pollConstruct
  | _ => it.defaultConstruct

/-- A fatal-setup iteration: backend construction failed with anything
other than the transient `Error::NotifyError`. -/
def isFatalSetup (it : IterEnv) : Bool :=
  match constructionOutcome it with
  | .error (.notifyError _) => false
  | .error _ => true
  | .ok _ => false


/-! ## Concrete scenarios used by witnesses and counterexamples -/

/-- A resolver whose every lookup fails (no DNS available). -/
def dnsFail : DnsOracle := fun _ _ => .error "lookup failed"

/-- A degenerate resolver that returns `Ok` with zero addresses for every
lookup — the edge case the unguarded `addrs[0]` does not handle. -/
def emptyOkDns : DnsOracle := fun _ _ => .ok []

/-- A realistic resolver: looking up the empty host fails (as
`getaddrinfo` does); every other host resolves to one address. -/
def emptyHostDns : DnsOracle := fun h _ =>
  if h = "" then .error "failed to lookup address information"
  else .ok [{ ip := "93.184.216.34", port := GossipListenAddr.DEFAULT_PORT }]

/-- An iteration in which backend construction fails with a
non-`NotifyError` error: a fatal-setup iteration. -/
def fatalIterEnv : IterEnv :=
  { arch := none, pollConstruct := .ok (),
    defaultConstruct := .error (.other "could not create file watcher"),
    runOutcome := .ok () }

/-- An iteration in which backend construction fails with the transient
`NotifyError`: a transient-setup iteration, retried. -/
def transientIterEnv : IterEnv :=
  { arch := none, pollConstruct := .ok (),
    defaultConstruct := .error (.notifyError "directory missing"),
    runOutcome := .ok () }

/-! ## Helper lemmas -/

/-- Structural invariant of the per-line loop: every member an `ok`
result of `resolveLines` contains was built by `memberOfSocketAddr`,
so it carries the one resolved port in both port fields and the
default (empty) id. -/
theorem resolveLines_ok_mem (dns : DnsOracle) (ls : List String) (ms : List Member)
    (h : resolveLines dns ls = .ok ms) :
    ∀ m ∈ ms, m.swim_port = m.gossip_port ∧ m.id = "" := by
  induction ls generalizing ms with
  | nil =>
    simp only [resolveLines, RunResult.ok.injEq] at h
    subst h
    simp
  | cons l ls ih =>
    rw [resolveLines] at h
    cases htos : toSocketAddrs dns (peerAddrOfLine l) with
    | error e => rw [htos] at h; cases h
    | ok addrs =>
      rw [htos] at h
      cases addrs with
      | nil => cases h
      | cons a as =>
        cases hr : resolveLines dns ls with
        | ok ms' =>
          rw [hr] at h
          simp only [RunResult.ok.injEq] at h
          subst h
          intro m hm
          rcases List.mem_cons.mp hm with hm | hm
          · subst hm
            exact ⟨rfl, rfl⟩
          · exact ih ms' hr m hm
        | err e => rw [hr] at h; cases h
        | panic => rw [hr] at h; cases h

/-- The per-line loop reports the first failing line's lookup error,
however many successfully resolving lines precede it and whatever
follows it. -/
theorem resolveLines_err_first (dns : DnsOracle) (pre : List String) (bad : String)
    (rest : List String) (e : String)
    (hpre : ∀ l ∈ pre, ∃ a as, toSocketAddrs dns (peerAddrOfLine l) = .ok (a :: as))
    (hbad : toSocketAddrs dns (peerAddrOfLine bad) = .error e) :
    resolveLines dns (pre ++ bad :: rest) = .err (.nameLookup e) := by
  induction pre with
  | nil =>
    rw [List.nil_append, resolveLines, hbad]
  | cons l pre ih =>
    obtain ⟨a, as, ha⟩ := hpre l (List.mem_cons_self l pre)
    have ih' := ih fun l' hl' => hpre l' (List.mem_cons_of_mem l hl')
    rw [List.cons_append, resolveLines, ha, ih']

/-- If every successful lookup of the resolver yields at least one
address, every successful `toSocketAddrs` result is nonempty (the
literal-parse branch always yields exactly one address). -/
theorem toSocketAddrs_ok_nonempty (dns : DnsOracle)
    (hdns : ∀ h p as, dns h p = .ok as → as ≠ [])
    (s : String) (as : List SocketAddr) (h : toSocketAddrs dns s = .ok as) :
    as ≠ [] := by
  rw [toSocketAddrs] at h
  cases hp : parseSocketAddrV4 s with
  | some a =>
    rw [hp] at h
    simp only [Except.ok.injEq] at h
    subst h
    simp
  | none =>
    rw [hp] at h
    cases hr : rsplitOnceColon s with
    | none => rw [hr] at h; cases h
    | some hpPair =>
      obtain ⟨host, port⟩ := hpPair
      simp only [hr] at h
      cases hpp : parsePort port.toList with
      | some p =>
        simp only [hpp] at h
        exact hdns host p as h
      | none => rw [hpp] at h; exact absurd h (by simp)

/-- Under a resolver whose successful lookups are nonempty, the per-line
loop never reaches the unguarded `addrs[0]` on an empty vector. -/
theorem resolveLines_ne_panic (dns : DnsOracle)
    (hdns : ∀ h p as, dns h p = .ok as → as ≠ [])
    (ls : List String) : resolveLines dns ls ≠ .panic := by
  induction ls with
  | nil => rw [resolveLines]; intro h; cases h
  | cons l ls ih =>
    rw [resolveLines]
    cases htos : toSocketAddrs dns (peerAddrOfLine l) with
    | error e => intro h; cases h
    | ok addrs =>
      cases addrs with
      | nil => exact absurd rfl (toSocketAddrs_ok_nonempty dns hdns _ _ htos)
      | cons a as =>
        cases hr : resolveLines dns ls with
        | ok ms => intro h; cases h
        | err e => intro h; cases h
        | panic => exact absurd hr ih

/-- `file_watcher_loop_body` breaks the loop exactly on a fatal-setup
iteration: a construction failure of the selected backend other than
`NotifyError`. -/
theorem loop_body_eq_isFatalSetup (it : IterEnv) :
    file_watcher_loop_body it = isFatalSetup it := by
  rw [file_watcher_loop_body, isFatalSetup, constructionOutcome]
  cases hsel : selectedWatcherType it.arch with
  | none =>
    cases hc : it.defaultConstruct with
    | ok u => cases hr : it.runOutcome <;> rfl
    | error e => cases e <;> rfl
  | some t =>
    cases t with
    | PollWatcherType =>
      cases hc : it.pollConstruct with
      | ok u => cases hr : it.runOutcome <;> rfl
      | error e => cases e <;> rfl
    | NotifyWatcherType =>
      cases hc : it.defaultConstruct with
      | ok u => cases hr : it.runOutcome <;> rfl
      | error e => cases e <;> rfl

/-! ## Claims -/

/-- C1: for every call to `get_members` on a file whose earlier lines
resolve, a line whose address resolution fails makes the call return a
name-lookup error with no members at all — even when earlier lines of the
same file resolved successfully — and processing stops at that first
failing line (whatever follows it is irrelevant). -/
theorem get_members_aborts_on_first_resolution_failure
    (dns : DnsOracle) (fs : WatchedFile) (signal : Bool)
    (pre : List String) (bad : String) (rest : List (Option String)) (e : String)
    (hf : fs.is_file = true) (ho : fs.openErr = none)
    (hl : fs.lines = pre.map some ++ some bad :: rest)
    (hpre : ∀ l ∈ pre, ∃ a as, toSocketAddrs dns (peerAddrOfLine l) = .ok (a :: as))
    (hbad : toSocketAddrs dns (peerAddrOfLine bad) = .error e) :
    get_members dns fs signal = (.err (.nameLookup e), signal) := by
  have hfm : fs.lines.filterMap id = pre ++ bad :: rest.filterMap id := by
    rw [hl]
    simp
  rw [get_members, hf]
  simp only [Bool.true_eq_false, if_false, ho, hfm,
    resolveLines_err_first dns pre bad (rest.filterMap id) e hpre hbad]

/-- Witness for C1: with no resolver available, a file whose first line
is the literal `1.2.3.4:5` and whose second line needs a lookup yields
the name-lookup error and no members, the third line notwithstanding. -/
theorem get_members_aborts_on_first_resolution_failure_witness :
    get_members dnsFail
      { is_file := true, openErr := none,
        lines := [some "1.2.3.4:5", some "@@", some "4.3.2.1"] } true =
      (.err (.nameLookup "lookup failed"), true) :=
  get_members_aborts_on_first_resolution_failure dnsFail
    { is_file := true, openErr := none,
      lines := [some "1.2.3.4:5", some "@@", some "4.3.2.1"] }
    true ["1.2.3.4:5"] "@@" [some "4.3.2.1"] "lookup failed" rfl rfl rfl
    (fun l hl => by
      have hl' : l = "1.2.3.4:5" := by simpa using hl
      exact ⟨{ ip := "1.2.3.4", port := 5 }, [], by rw [hl']; rfl⟩)
    rfl

/-- C2 counterexample: a `get_members` call that fails name lookup
returns an error and leaves a previously-true change signal set, so it is
not the case that the signal reads false after every call. -/
theorem get_members_error_leaves_signal_set :
    (get_members dnsFail { is_file := true, openErr := none, lines := [some "@@"] } true).1 =
        .err (.nameLookup "lookup failed") ∧
      (get_members dnsFail { is_file := true, openErr := none, lines := [some "@@"] } true).2 =
        true := by
  decide

/-- C2 (amended): after a `get_members` call that returns `Ok` —
including the not-a-regular-file case — the change signal reads false
regardless of its prior value; a call that returns an error (I/O open
failure or name-lookup failure) leaves the signal at its prior value. -/
theorem get_members_signal_cleared_iff_ok
    (dns : DnsOracle) (fs : WatchedFile) (signal : Bool) :
    (∀ ms, (get_members dns fs signal).1 = .ok ms → (get_members dns fs signal).2 = false) ∧
      (∀ e, (get_members dns fs signal).1 = .err e → (get_members dns fs signal).2 = signal) := by
  rw [get_members]
  cases hf : fs.is_file with
  | false => simp
  | true =>
    simp only [Bool.true_eq_false, if_false]
    cases ho : fs.openErr with
    | some err => simp
    | none =>
      cases hr : resolveLines dns (fs.lines.filterMap id) with
      | ok ms => simp
      | err e => simp
      | panic => simp

/-- Witness for C2 (amended): a successful call clears a set signal, and
the failing call of the counterexample keeps it set. -/
theorem get_members_signal_cleared_iff_ok_witness :
    (get_members dnsFail { is_file := true, openErr := none, lines := [some "1.2.3.4:5"] }
          true).2 =
        false ∧
      (get_members dnsFail { is_file := true, openErr := none, lines := [some "@@"] } true).2 =
        true := by
  constructor
  · exact (get_members_signal_cleared_iff_ok dnsFail
      { is_file := true, openErr := none, lines := [some "1.2.3.4:5"] } true).1
      [{ id := "", address := "1.2.3.4", swim_port := 5, gossip_port := 5 }] (by decide)
  · exact (get_members_signal_cleared_iff_ok dnsFail
      { is_file := true, openErr := none, lines := [some "@@"] } true).2
      (.nameLookup "lookup failed") (by decide)

/-- C3 counterexample: blank lines are not skipped.  A file containing
only one blank line does not yield `Ok` with an empty sequence: the blank
line gets the default gossip port appended (giving `:9638`) and the
resolution of the empty host fails, so the call returns a name-lookup
error under a resolver that (as `getaddrinfo` does) rejects the empty
host. -/
theorem blank_line_not_skipped :
    peerAddrOfLine "" = ":9638" ∧
      (get_members emptyHostDns { is_file := true, openErr := none, lines := [some ""] }
            false).1 =
          .err (.nameLookup "failed to lookup address information") ∧
        (get_members emptyHostDns { is_file := true, openErr := none, lines := [some ""] }
              false).1 ≠
            .ok [] := by
  refine ⟨by decide, by decide, by decide⟩

/-- C3 (amended): lines that cannot be read are silently skipped and
contribute no member and no error — `get_members` behaves as if the file
held only the readable lines, and a file of only unreadable lines yields
`Ok` with an empty sequence (and a cleared signal).  Blank lines, by
contrast, are not skipped: a blank line has the default gossip port
appended and goes through resolution like any other line, which fails
under a resolver that rejects the empty host. -/
theorem unreadable_skipped_blank_not
    (dns : DnsOracle) (lines : List (Option String)) (signal : Bool) :
    (get_members dns { is_file := true, openErr := none, lines := lines } signal =
        get_members dns
          { is_file := true, openErr := none, lines := (lines.filterMap id).map some } signal) ∧
      ((∀ l ∈ lines, l = none) →
        get_members dns { is_file := true, openErr := none, lines := lines } signal =
          (.ok [], false)) ∧
      (get_members emptyHostDns { is_file := true, openErr := none, lines := [some ""] }
          signal =
        (.err (.nameLookup "failed to lookup address information"), signal)) := by
  refine ⟨?_, ?_, rfl⟩
  · rw [get_members, get_members]
    simp
  · intro hall
    have hnil : lines.filterMap id = [] := by
      rw [List.filterMap_eq_nil_iff]
      simpa using hall
    rw [get_members]
    simp [hnil, resolveLines]

/-- Witness for C3 (amended): a file of two unreadable lines yields
`Ok []`, and the blank-line file yields the name-lookup error. -/
theorem unreadable_skipped_blank_not_witness :
    (get_members dnsFail { is_file := true, openErr := none, lines := [none, none] } true =
        (.ok [], false)) ∧
      (get_members emptyHostDns { is_file := true, openErr := none, lines := [some ""] } true =
        (.err (.nameLookup "failed to lookup address information"), true)) :=
  ⟨(unreadable_skipped_blank_not dnsFail [none, none] true).2.1 (by decide),
    (unreadable_skipped_blank_not dnsFail [none, none] true).2.2⟩

/-- Case analysis of a successful `get_members` call: either the path was
not a regular file (empty result) or the per-line loop succeeded with
exactly the returned members. -/
theorem get_members_ok_cases (dns : DnsOracle) (fs : WatchedFile) (signal : Bool)
    (ms : List Member) (h : (get_members dns fs signal).1 = .ok ms) :
    ms = [] ∨ resolveLines dns (fs.lines.filterMap id) = .ok ms := by
  rw [get_members] at h
  split at h
  · simp only [RunResult.ok.injEq] at h
    exact Or.inl h.symm
  · split at h
    · simp at h
    · split at h
      next ms' heq =>
        simp only [RunResult.ok.injEq] at h
        subst h
        exact Or.inr heq
      next e heq => simp at h
      next heq => simp at h

/-- C4: `get_members` treats a line containing a `:` as a complete
`host:port` and appends the fixed default gossip port otherwise, and the
output order equals the file line order; concretely, for a file
containing `1.2.3.4:5` then `4.3.2.1` it returns two members in that
order, the first with address `1.2.3.4` and port `5` in both port
fields, the second with address `4.3.2.1` and the default gossip port in
both port fields. -/
theorem get_members_line_format_and_order
    (dns : DnsOracle) (signal : Bool) (line : String) :
    (line.toList.contains ':' = true → peerAddrOfLine line = line) ∧
      (line.toList.contains ':' = false →
        peerAddrOfLine line = line ++ ":" ++ toString GossipListenAddr.DEFAULT_PORT) ∧
      get_members dns
          { is_file := true, openErr := none, lines := [some "1.2.3.4:5", some "4.3.2.1"] }
          signal =
        (.ok [{ id := "", address := "1.2.3.4", swim_port := 5, gossip_port := 5 },
              { id := "", address := "4.3.2.1", swim_port := GossipListenAddr.DEFAULT_PORT,
                gossip_port := GossipListenAddr.DEFAULT_PORT }],
          false) := by
  refine ⟨fun h => ?_, fun h => ?_, rfl⟩
  · rw [peerAddrOfLine, if_pos h]
  · rw [peerAddrOfLine, if_neg (by simpa using h)]

/-- Witness for C4: a line with a `:` is kept whole and a line without
one gets `:9638` appended. -/
theorem get_members_line_format_and_order_witness :
    peerAddrOfLine "1.2.3.4:5" = "1.2.3.4:5" ∧ peerAddrOfLine "4.3.2.1" = "4.3.2.1:9638" :=
  ⟨(get_members_line_format_and_order dnsFail true "1.2.3.4:5").1 (by decide),
    ((get_members_line_format_and_order dnsFail true "4.3.2.1").2.1 (by decide)).trans
      (by decide)⟩

/-- C5: when the watched path does not name a regular file,
`get_members` clears the change signal and returns `Ok` with an empty
sequence, never an error; and for a path that never exists no callback
ever fires, so `has_fs_events` reads the initial false. -/
theorem get_members_no_file (dns : DnsOracle) (fs : WatchedFile) (signal : Bool)
    (events : List PeerEvent) (hf : fs.is_file = false) (hev : events = []) :
    get_members dns fs signal = (.ok [], false) ∧
      has_fs_events (signalAfter events) = false := by
  constructor
  · rw [get_members, hf]
    rfl
  · rw [hev]
    rfl

/-- Witness for C5: the never-existing-path scenario. -/
theorem get_members_no_file_witness :
    get_members dnsFail { is_file := false, openErr := none, lines := [] } true =
        (.ok [], false) ∧
      has_fs_events (signalAfter []) = false :=
  get_members_no_file dnsFail { is_file := false, openErr := none, lines := [] } true [] rfl
    rfl

/-- C6: every member in the sequence returned by a successful
`get_members` call has `swim_port == gossip_port`, both fields being set
from the single resolved port of that member's line. -/
theorem get_members_swim_eq_gossip (dns : DnsOracle) (fs : WatchedFile) (signal : Bool)
    (ms : List Member) (h : (get_members dns fs signal).1 = .ok ms) :
    ∀ m ∈ ms, m.swim_port = m.gossip_port := by
  rcases get_members_ok_cases dns fs signal ms h with hnil | hok
  · subst hnil
    simp
  · exact fun m hm => (resolveLines_ok_mem dns _ ms hok m hm).1

/-- Witness for C6: the member extracted from `1.2.3.4:5` carries 5 in
both port fields. -/
theorem get_members_swim_eq_gossip_witness :
    Member.swim_port { id := "", address := "1.2.3.4", swim_port := 5, gossip_port := 5 } =
      Member.gossip_port { id := "", address := "1.2.3.4", swim_port := 5, gossip_port := 5 } :=
  get_members_swim_eq_gossip dnsFail
    { is_file := true, openErr := none, lines := [some "1.2.3.4:5"] } false
    [{ id := "", address := "1.2.3.4", swim_port := 5, gossip_port := 5 }] (by decide)
    { id := "", address := "1.2.3.4", swim_port := 5, gossip_port := 5 } (by simp)

/-- C7: a worker-loop iteration breaks the loop exactly when backend
construction fails with a fatal-setup error (any construction error
other than the transient `NotifyError`); transient construction
failures and every outcome of the backend's `run` continue the loop;
and when the loop terminates the thread unregisters from the liveliness
tracker with the success status `Ok(())`. -/
theorem worker_loop_terminates_iff_fatal_setup (trace : List IterEnv) :
    ((worker_loop trace).isSome ↔ ∃ it ∈ trace, isFatalSetup it = true) ∧
      (∀ r, worker_loop trace = some r → r = .unregistered (.ok ())) ∧
      (∀ it, file_watcher_loop_body it = isFatalSetup it) := by
  refine ⟨?_, ?_, loop_body_eq_isFatalSetup⟩
  · induction trace with
    | nil => simp [worker_loop]
    | cons it rest ih =>
      rw [worker_loop]
      cases hb : file_watcher_loop_body it with
      | true =>
        have hfatal : isFatalSetup it = true := (loop_body_eq_isFatalSetup it).symm.trans hb
        exact iff_of_true (by rfl)
          ⟨it, List.mem_cons_self it rest, hfatal⟩
      | false =>
        have hfatal : isFatalSetup it = false := (loop_body_eq_isFatalSetup it).symm.trans hb
        rw [if_neg Bool.false_ne_true, ih]
        constructor
        · rintro ⟨x, hx, hfx⟩
          exact ⟨x, List.mem_cons_of_mem _ hx, hfx⟩
        · rintro ⟨x, hx, hfx⟩
          rcases List.mem_cons.mp hx with hx | hx
          · subst hx
            rw [hfatal] at hfx
            cases hfx
          · exact ⟨x, hx, hfx⟩
  · induction trace with
    | nil =>
      intro r hr
      rw [worker_loop] at hr
      exact Option.noConfusion hr
    | cons it rest ih =>
      intro r hr
      rw [worker_loop] at hr
      by_cases hb : file_watcher_loop_body it = true
      · rw [if_pos hb] at hr
        injection hr with h
        exact h.symm
      · rw [if_neg hb] at hr
        exact ih r hr

/-- Witness for C7: a transient-setup iteration followed by a
fatal-setup iteration terminates the loop with the success
unregistration. -/
theorem worker_loop_terminates_iff_fatal_setup_witness :
    worker_loop [transientIterEnv, fatalIterEnv] = some (.unregistered (.ok ())) := by
  obtain ⟨h1, h2, _⟩ := worker_loop_terminates_iff_fatal_setup [transientIterEnv, fatalIterEnv]
  have hs : (worker_loop [transientIterEnv, fatalIterEnv]).isSome :=
    h1.mpr ⟨fatalIterEnv, List.mem_cons_of_mem _ (List.mem_cons_self _ _), by decide⟩
  obtain ⟨r, hr⟩ := Option.isSome_iff_exists.mp hs
  rw [hr, h2 r hr]

/-- C8: the environment override recognises exactly one architecture
string, `aarch64-macos`, which selects the polling backend; any other
value selects the event-driven backend, and so does absence of the
variable. -/
theorem backend_selection (s : String) :
    effectiveBackend (some "aarch64-macos") = .PollWatcherType ∧
      (s ≠ "aarch64-macos" → effectiveBackend (some s) = .NotifyWatcherType) ∧
      effectiveBackend none = .NotifyWatcherType ∧
      (effectiveBackend (some s) = .PollWatcherType ↔ s = "aarch64-macos") := by
  refine ⟨rfl, fun h => ?_, rfl, ?_⟩
  · rw [effectiveBackend, selectedWatcherType, if_neg h]
  · constructor
    · intro h
      by_contra hne
      rw [effectiveBackend, selectedWatcherType, if_neg hne] at h
      cases h
    · intro h
      subst h
      rfl

/-- Witness for C8: a non-matching architecture value selects the
event-driven backend. -/
theorem backend_selection_witness :
    effectiveBackend (some "x86_64-linux") = .NotifyWatcherType :=
  (backend_selection "x86_64-linux").2.1 (by decide)

/-- C9: every member produced by `get_members` keeps the empty `id` of
the (spec-modelled) `Member::default()`; the id is assigned later by a
downstream component, not here. -/
theorem get_members_id_empty (dns : DnsOracle) (fs : WatchedFile) (signal : Bool)
    (ms : List Member) (h : (get_members dns fs signal).1 = .ok ms) :
    ∀ m ∈ ms, m.id = "" := by
  rcases get_members_ok_cases dns fs signal ms h with hnil | hok
  · subst hnil
    simp
  · exact fun m hm => (resolveLines_ok_mem dns _ ms hok m hm).2

/-- Witness for C9: the member extracted from `1.2.3.4:5` has an empty
id. -/
theorem get_members_id_empty_witness :
    Member.id { id := "", address := "1.2.3.4", swim_port := 5, gossip_port := 5 } = "" :=
  get_members_id_empty dnsFail
    { is_file := true, openErr := none, lines := [some "1.2.3.4:5"] } false
    [{ id := "", address := "1.2.3.4", swim_port := 5, gossip_port := 5 }] (by decide)
    { id := "", address := "1.2.3.4", swim_port := 5, gossip_port := 5 } (by simp)

/-- C10: when every successful lookup of the resolver yields at least
one address, the unguarded `addrs[0]` in `get_members` is in-bounds
(the panic is unreachable); and without that precondition — a resolver
returning `Ok` with zero addresses — the indexing fails, an edge case
the code does not guard. -/
theorem addrs_index_in_bounds (dns : DnsOracle) (fs : WatchedFile) (signal : Bool)
    (hdns : ∀ h p as, dns h p = .ok as → as ≠ []) :
    (get_members dns fs signal).1 ≠ .panic ∧
      (get_members emptyOkDns
          { is_file := true, openErr := none, lines := [some "example.com"] } false).1 =
        .panic := by
  refine ⟨?_, by decide⟩
  rw [get_members]
  split
  · intro hcon
    cases hcon
  · split
    · intro hcon
      cases hcon
    · split
      next ms heq => intro hcon; cases hcon
      next e heq => intro hcon; cases hcon
      next heq => exact absurd heq (resolveLines_ne_panic dns hdns _)

/-- Witness for C10: a no-lookup resolver (every lookup fails) trivially
satisfies the precondition, so the call cannot panic. -/
theorem addrs_index_in_bounds_witness :
    (get_members dnsFail { is_file := true, openErr := none, lines := [some "1.2.3.4:5"] }
        false).1 ≠ .panic :=
  (addrs_index_in_bounds dnsFail
      { is_file := true, openErr := none, lines := [some "1.2.3.4:5"] } false
      (fun h p as hok => by simp [dnsFail] at hok)).1

end PeerWatcher
